import Mathlib

set_option maxRecDepth 4000

/-!
Shallow embedding of the geff frontend's command dispatch and
state-synchronization layer (src/geff-tauri/src/Event.ts and the Redux
store slices), together with proofs about the claims of the
natural-language specification.

JavaScript strings are modelled as `List Char`; the asynchronous outcome
of a backend invocation is modelled as an `Except JsVal` value passed in
explicitly; a thunk's run is modelled as a function from the Redux root
state to the new root state plus the list of backend operations invoked.
-/

namespace Geff

/-- JavaScript strings, modelled as lists of characters. -/
abbrev JSString := List Char

/-- Untyped JavaScript values, as far as the error-handling paths inspect
them: string rejection values, objects with an `error` field, `null` and
`undefined`. -/
inductive JsVal where
  | jstr (s : JSString)
  | jobjError (error : JsVal)
  | jnull
  | jundef
deriving DecidableEq

/-- JavaScript property access `v.error`: the field of an `error`-object,
`undefined` on a string (property absent). -/
def getErrorField : JsVal → JsVal
  | JsVal.jobjError v => v
  | _ => JsVal.jundef

/-- JSON string escaping for the characters that can occur in the
rejection values exercised here. -/
def jsonEscapeChar (c : Char) : List Char :=
  if c = '"' then ['\\', '"']
  else if c = '\\' then ['\\', '\\']
  else [c]

/-- Model of `JSON.stringify` on the value shapes above; a string is
quote-wrapped and escaped. -/
def jsonStringify : JsVal → JSString
  | JsVal.jstr s => '"' :: ((s.map jsonEscapeChar).flatten ++ ['"'])
  | JsVal.jobjError v => "\x7b\"error\":".toList ++ jsonStringify v ++ "\x7d".toList
  | JsVal.jnull => "null".toList
  | JsVal.jundef => "undefined".toList

/-- Commandline slice state: `store.state` is empty, typing or error. -/
inductive CommandlineState where
  | empty
  | typing (content : JSString)
  | error (error : JsVal)
deriving DecidableEq

def colonKey : JSString := ":".toList
def escapeKey : JSString := "Escape".toList
def enterKey : JSString := "Enter".toList
def backspaceKey : JSString := "Backspace".toList
def deleteKey : JSString := "Delete".toList

/-- Reducer `handleKeyPressEvent` of the commandline slice. -/
def handleKeyPressEvent (state : CommandlineState) (key : JSString) : CommandlineState :=
  match state with
  | CommandlineState.empty | CommandlineState.error _ =>
      if key = colonKey then CommandlineState.typing colonKey
      else if key = escapeKey then CommandlineState.empty
      else state
  | CommandlineState.typing content =>
      if key = escapeKey then CommandlineState.empty
      else if key = backspaceKey ∨ key = deleteKey then
        if content.length > 1 then
          CommandlineState.typing (content.take (content.length - 1))
        else if content.length = 1 then CommandlineState.empty
        else CommandlineState.typing content
      else if key = enterKey then CommandlineState.empty
      else CommandlineState.typing (content ++ key)

/-- Reducer `displayError` of the commandline slice: destructures
`action.payload` as `\x7b error \x7d` and replaces the state wholesale. -/
def displayError (_state : CommandlineState) (payload : JsVal) : CommandlineState :=
  CommandlineState.error (getErrorField payload)

/-- Closed union `"Goals" | "Help"`. -/
inductive ActiveActivity where
  | Goals
  | Help
deriving DecidableEq

/-- Reducer `setActiveActivity` of the activity slice. -/
def setActiveActivity (_state : ActiveActivity) (newActiveActivity : ActiveActivity) :
    ActiveActivity :=
  newActiveActivity

/-- A node of the goal hierarchy, as in the `PopulatedGoal` type. -/
inductive PopulatedGoal where
  | mk (id : Int) (parentGoalId : Option Int) (name : String)
      (effortToDate : Int) (effortToComplete : Int)
      (maxChildLayerWidth : Int) (maxChildDepth : Int)
      (children : List PopulatedGoal)

/-- Goal slice state: `unloaded` initially, or a loaded snapshot. -/
inductive GoalState where
  | unloaded
  | loaded (populatedGoals : List PopulatedGoal) (selectedGoalId : Option Int)
      (focusedGoals : List Int)

structure CommandlineDisplayState where
  fontSizePixels : Int
  backgroundColor : String
  fontColor : String

structure DisplayState where
  commandline : CommandlineDisplayState

/-- The Redux root state combining the four slices. -/
structure RootState where
  commandline : CommandlineState
  goal : GoalState
  display : DisplayState
  activity : ActiveActivity

/-- Initial values of the four slices at process start. -/
def initialRootState : RootState :=
  { commandline := CommandlineState.empty
    goal := GoalState.unloaded
    display := { commandline :=
      { fontSizePixels := 14, backgroundColor := "gray", fontColor := "black" } }
    activity := ActiveActivity.Goals }

/-- One backend invocation through the Tauri `invoke` gateway. -/
inductive BackendCall where
  | fetch
  | load
  | appCommand (command : JSString)
  | cursorAction (cursorAction : String)
  | setActiveActivity (newActiveActivity : ActiveActivity)
deriving DecidableEq

/-- Backend mutating operations, as opposed to the pure reads `fetch` and
the session-priming `load`. -/
def isMutatingCall : BackendCall → Bool
  | BackendCall.appCommand _ => true
  | BackendCall.cursorAction _ => true
  | BackendCall.setActiveActivity _ => true
  | _ => false

structure FrontendConfig where
  display : DisplayState

structure FrontendGoalState where
  populatedGoals : List PopulatedGoal
  selectedGoalId : Option Int
  focusedGoals : List Int
  config : FrontendConfig

/-- Shape of a non-null result of the backend `fetch` operation. -/
structure FrontendState where
  goalState : FrontendGoalState
  activeActivity : ActiveActivity

/-- Effect of `dispatch(displayError(payload))` on the root state. -/
def dispatchDisplayError (s : RootState) (payload : JsVal) : RootState :=
  { s with commandline := displayError s.commandline payload }

/-- The three dispatches of `fetchStateThunk` on a non-null fetch result:
`load`, `updateDisplay` and `setActiveActivity`, all from one snapshot. -/
def applyFrontendState (s : RootState) (frontendState : FrontendState) : RootState :=
  { s with
    goal := GoalState.loaded frontendState.goalState.populatedGoals
      frontendState.goalState.selectedGoalId frontendState.goalState.focusedGoals
    display := frontendState.goalState.config.display
    activity := setActiveActivity s.activity frontendState.activeActivity }

/-- Run of a wrapped thunk's target: the dispatches it applied, the
backend calls it made, and whether its promise resolved or rejected. -/
abbrev TargetRun := RootState → RootState × List BackendCall × Except JsVal Unit

/-- Model of `wrapErrorHandler`: on rejection the error is
`JSON.stringify`-ed and dispatched as `displayError(\x7b error \x7d)`; on
resolution `fetchState()` is dispatched unless `fetchStateAfter` is
`false`. -/
def wrapErrorHandler (target : TargetRun) (fetchStateAfter : Bool)
    (fetchStateRun : RootState → RootState × List BackendCall) (s : RootState) :
    RootState × List BackendCall :=
  match target s with
  | (s1, calls, Except.error e) =>
      (dispatchDisplayError s1 (JsVal.jobjError (JsVal.jstr (jsonStringify e))), calls)
  | (s1, calls, Except.ok _) =>
      if fetchStateAfter then
        let r := fetchStateRun s1
        (r.1, calls ++ r.2)
      else (s1, calls)

/-- Target of `fetchState`: `invoke("fetch")`, then on a non-null result
the three cache dispatches; a null result dispatches nothing. -/
def fetchStateThunk (fetchResult : Except JsVal (Option FrontendState)) : TargetRun :=
  fun s =>
    match fetchResult with
    | Except.error e => (s, [BackendCall.fetch], Except.error e)
    | Except.ok none => (s, [BackendCall.fetch], Except.ok ())
    | Except.ok (some fs) => (applyFrontendState s fs, [BackendCall.fetch], Except.ok ())

/-- The `fetchState()` thunk: `fetchStateThunk` wrapped with
`fetchStateAfter: false`. -/
def fetchState (fetchResult : Except JsVal (Option FrontendState)) (s : RootState) :
    RootState × List BackendCall :=
  wrapErrorHandler (fetchStateThunk fetchResult) false (fun s0 => (s0, [])) s

/-- Target of `invokeAppCommand`: one `app_command` invocation carrying
the command string unmodified. -/
def invokeAppCommandThunk (command : JSString) (invokeResult : Except JsVal Unit) : TargetRun :=
  fun s => (s, [BackendCall.appCommand command], invokeResult)

/-- The `invokeAppCommand(command)` thunk, wrapped with the default
`fetchStateAfter: true`. -/
def invokeAppCommand (command : JSString) (invokeResult : Except JsVal Unit)
    (fetchResult : Except JsVal (Option FrontendState)) (s : RootState) :
    RootState × List BackendCall :=
  wrapErrorHandler (invokeAppCommandThunk command invokeResult) true (fetchState fetchResult) s

/-- Target of `cursorAction`: the `cursor_action` invocation, then on its
resolution a `fetchState()` dispatch from inside the target itself. -/
def cursorActionThunk (action : String) (invokeResult : Except JsVal Unit)
    (fetchResult : Except JsVal (Option FrontendState)) : TargetRun :=
  fun s =>
    match invokeResult with
    | Except.error e => (s, [BackendCall.cursorAction action], Except.error e)
    | Except.ok _ =>
        let r := fetchState fetchResult s
        (r.1, BackendCall.cursorAction action :: r.2, Except.ok ())

/-- The `cursorAction(action)` thunk, wrapped with the default
`fetchStateAfter: true` (so a second fetch follows the inner one). -/
def cursorAction (action : String) (invokeResult : Except JsVal Unit)
    (innerFetchResult afterFetchResult : Except JsVal (Option FrontendState)) (s : RootState) :
    RootState × List BackendCall :=
  wrapErrorHandler (cursorActionThunk action invokeResult innerFetchResult) true
    (fetchState afterFetchResult) s

/-- Target of `invokeSetActiveActivity`: one `set_active_activity`
invocation. -/
def invokeSetActiveActivityThunk (activeActivity : ActiveActivity)
    (invokeResult : Except JsVal Unit) : TargetRun :=
  fun s => (s, [BackendCall.setActiveActivity activeActivity], invokeResult)

/-- The `invokeSetActiveActivity` thunk, wrapped with the default
`fetchStateAfter: true`. -/
def invokeSetActiveActivity (activeActivity : ActiveActivity) (invokeResult : Except JsVal Unit)
    (fetchResult : Except JsVal (Option FrontendState)) (s : RootState) :
    RootState × List BackendCall :=
  wrapErrorHandler (invokeSetActiveActivityThunk activeActivity invokeResult) true
    (fetchState fetchResult) s

/-- Model of `loadCommandThunk`: `invoke("load")` with its rejection
caught raw (`catch((e) => e)`); if the caught value is not `null` it is
dispatched as the *whole* `displayError` payload; then `fetchState()` is
dispatched unconditionally. -/
def loadCommandThunk (loadResult : Except JsVal Unit)
    (fetchResult : Except JsVal (Option FrontendState)) (s : RootState) :
    RootState × List BackendCall :=
  let s1 :=
    match loadResult with
    | Except.ok _ => s
    | Except.error e => if e = JsVal.jnull then s else dispatchDisplayError s e
  let r := fetchState fetchResult s1
  (r.1, BackendCall.load :: r.2)

/-- Synchronous run of `keyboardEventThunk` for one key event: the
commandline transition it applies and the backend-invoking thunks it
dispatches, in dispatch order.  In the source the navigation `switch` has
no `break` at the end of `case "q"`, so control falls through into
`case "h"` and dispatches `cursorAction("out")` as well. -/
def keyboardEventThunk (s : RootState) (key : JSString) : RootState × List BackendCall :=
  let commandlineState := s.commandline
  let commandCalls : List BackendCall :=
    if key = enterKey then
      match commandlineState with
      | CommandlineState.typing content => [BackendCall.appCommand content]
      | _ => []
    else []
  let s1 : RootState := { s with commandline := handleKeyPressEvent s.commandline key }
  let navigationCalls : List BackendCall :=
    match commandlineState with
    | CommandlineState.typing _ => []
    | _ =>
      if key = "q".toList then
        (if s.activity = ActiveActivity.Help then
          [BackendCall.setActiveActivity ActiveActivity.Goals]
        else []) ++ [BackendCall.cursorAction "out"]
      else if key = "h".toList then [BackendCall.cursorAction "out"]
      else if key = "j".toList then [BackendCall.cursorAction "down"]
      else if key = "k".toList then [BackendCall.cursorAction "up"]
      else if key = "l".toList then [BackendCall.cursorAction "in"]
      else []
  (s1, commandCalls ++ navigationCalls)

/-! Concrete states used by the evaluations below. -/

/-- Root state whose commandline is `Typing(":help")`. -/
def typingHelpState : RootState :=
  { initialRootState with commandline := CommandlineState.typing ":help".toList }

/-- Root state with the Help activity active and an idle commandline. -/
def helpRootState : RootState :=
  { initialRootState with activity := ActiveActivity.Help }

/-- Transcription of the spec's §4.1 transition table (claim C7), amended
only in the Backspace/Delete row: the code leaves `Typing(c)` unchanged
when `c` is empty (a state unreachable in normal operation) instead of
clearing to `Empty`. -/
def nextSpecTable (state : CommandlineState) (key : JSString) : CommandlineState :=
  match state with
  | CommandlineState.empty | CommandlineState.error _ =>
      if key = colonKey then CommandlineState.typing colonKey
      else if key = escapeKey then CommandlineState.empty
      else state
  | CommandlineState.typing c =>
      if key = escapeKey then CommandlineState.empty
      else if key = enterKey then CommandlineState.empty
      else if key = backspaceKey ∨ key = deleteKey then
        if c.length > 1 then CommandlineState.typing (c.take (c.length - 1))
        else if c.length = 1 then CommandlineState.empty
        else CommandlineState.typing c
      else CommandlineState.typing (c ++ key)

/-- Commandline states reachable from the initial `Empty` state through
key-press transitions and `displayError` dispatches. -/
inductive ReachableCommandline : CommandlineState → Prop where
  | init : ReachableCommandline CommandlineState.empty
  | keyPress (s : CommandlineState) (key : JSString) :
      ReachableCommandline s → ReachableCommandline (handleKeyPressEvent s key)
  | errorDisplay (s : CommandlineState) (payload : JsVal) :
      ReachableCommandline s → ReachableCommandline (displayError s payload)

/-- A `Typing` state is well formed when its content starts with the mode
marker `':'`; other states carry no content. -/
def typingWellFormed : CommandlineState → Prop
  | CommandlineState.typing c => ∃ rest, c = ':' :: rest
  | _ => True

/-- Sequential application of a list of key events to the commandline. -/
def applyKeys (s : CommandlineState) (keys : List JSString) : CommandlineState :=
  keys.foldl handleKeyPressEvent s

/-- States producible from `Empty` by at most `m` printable keypresses:
either `Empty`, or typing a nonempty buffer of at most `m` characters. -/
def boundedTyping (m : Nat) (s : CommandlineState) : Prop :=
  s = CommandlineState.empty
  ∨ ∃ c, s = CommandlineState.typing c ∧ 1 ≤ c.length ∧ c.length ≤ m

/-- Lemma: pressing Enter while typing always clears the commandline. -/
theorem handle_typing_enter (c : JSString) :
    handleKeyPressEvent (CommandlineState.typing c) enterKey = CommandlineState.empty := by
  have h1 : ¬ (enterKey = escapeKey) := by decide
  have h2 : ¬ (enterKey = backspaceKey ∨ enterKey = deleteKey) := by decide
  simp [handleKeyPressEvent, h1, h2]

/-- C6: if the backend `fetch` returns an absent snapshot, `fetchState`
leaves the whole root state — all four caches — exactly equal to its
pre-call value, and the only backend operation performed is the read
itself. -/
theorem fetchState_absent_leaves_state_unchanged (s : RootState) :
    (fetchState (Except.ok none) s).1 = s
    ∧ (fetchState (Except.ok none) s).2 = [BackendCall.fetch] := by
  exact ⟨rfl, rfl⟩

/-- C10: the `displayError` reducer ignores the prior commandline state —
it produces the same `Error` state from every prior state, in particular
overwriting an in-progress `Typing` buffer with the error message carried
by the payload's `error` field. -/
theorem displayError_overwrites_every_state :
    (∀ (s1 s2 : CommandlineState) (p : JsVal), displayError s1 p = displayError s2 p)
    ∧ (∀ (content : JSString) (msg : JsVal),
        displayError (CommandlineState.typing content) (JsVal.jobjError msg)
          = CommandlineState.error msg)
    ∧ (∀ (s : CommandlineState) (p : JsVal),
        displayError s p = CommandlineState.error (getErrorField p)) :=
  ⟨fun _ _ _ => rfl, fun _ _ => rfl, fun _ _ => rfl⟩

/-- C1 counterexample: with commandline `Typing(":help")`, pressing Enter
dispatches `app_command` with the full buffer `":help"` — the leading
`':'` marker is not stripped, so `app_command("help")` is never invoked —
while the commandline does become `Empty`. -/
theorem enter_submits_unstripped_counterexample :
    (keyboardEventThunk typingHelpState enterKey).2
        = [BackendCall.appCommand ":help".toList]
    ∧ BackendCall.appCommand "help".toList ∉ (keyboardEventThunk typingHelpState enterKey).2
    ∧ (keyboardEventThunk typingHelpState enterKey).1.commandline = CommandlineState.empty := by
  decide

/-- C1 (amended): for every commandline state `Typing(c)`, pressing Enter
dispatches exactly one `app_command` invocation carrying the buffer `c`
verbatim (leading `':'` marker included), and the commandline state
becomes `Empty` regardless of the invocation's outcome. -/
theorem enter_submits_buffer_and_clears (s : RootState) (c : JSString)
    (h : s.commandline = CommandlineState.typing c) :
    (keyboardEventThunk s enterKey).2 = [BackendCall.appCommand c]
    ∧ (keyboardEventThunk s enterKey).1.commandline = CommandlineState.empty := by
  refine ⟨?_, ?_⟩ <;> simp [keyboardEventThunk, h, handle_typing_enter]

/-- C1 witness: the amended theorem applied at `Typing(":help")`. -/
theorem enter_submits_buffer_and_clears_witness :
    (keyboardEventThunk typingHelpState enterKey).2
        = [BackendCall.appCommand ":help".toList]
    ∧ (keyboardEventThunk typingHelpState enterKey).1.commandline = CommandlineState.empty :=
  enter_submits_buffer_and_clears typingHelpState ":help".toList rfl

/-- C2 at its failing input: with the Help activity active and an idle
commandline, the single key event `q` dispatches two backend mutating
invocations — `set_active_activity("Goals")` and then, through the
missing `break` in the source's `switch`, `cursor_action("out")`. -/
theorem q_key_double_invocation :
    (keyboardEventThunk helpRootState "q".toList).2
        = [BackendCall.setActiveActivity ActiveActivity.Goals,
           BackendCall.cursorAction "out"]
    ∧ ((keyboardEventThunk helpRootState "q".toList).2.filter isMutatingCall).length = 2 := by
  decide

/-- C3 at its failing input: in navigation mode the keys h/j/k/l map to
cursor actions out/down/up/in and an unmapped key dispatches nothing, but
`q` — which per the claim must issue no `cursor_action` — dispatches
`cursor_action("out")` by falling through the `switch`. -/
theorem navigation_key_dispatch_eval :
    (keyboardEventThunk initialRootState "h".toList).2 = [BackendCall.cursorAction "out"]
    ∧ (keyboardEventThunk initialRootState "j".toList).2 = [BackendCall.cursorAction "down"]
    ∧ (keyboardEventThunk initialRootState "k".toList).2 = [BackendCall.cursorAction "up"]
    ∧ (keyboardEventThunk initialRootState "l".toList).2 = [BackendCall.cursorAction "in"]
    ∧ (keyboardEventThunk initialRootState "x".toList).2 = []
    ∧ (keyboardEventThunk initialRootState "q".toList).2 = [BackendCall.cursorAction "out"] := by
  decide

/-- C5 at its failing input: when the startup `load` invocation rejects
with the string `"boom"`, `loadCommandThunk` passes the raw rejection as
the whole `displayError` payload, so the resulting `Error` state carries
`undefined` — not any string, and in particular not the serialized
failure. -/
theorem load_failure_error_message_undefined :
    (loadCommandThunk (Except.error (JsVal.jstr "boom".toList)) (Except.ok none)
        initialRootState).1.commandline = CommandlineState.error JsVal.jundef
    ∧ ∀ m : JSString,
        (loadCommandThunk (Except.error (JsVal.jstr "boom".toList)) (Except.ok none)
          initialRootState).1.commandline ≠ CommandlineState.error (JsVal.jstr m) := by
  refine ⟨by decide, ?_⟩
  intro m h
  rw [(by decide :
    (loadCommandThunk (Except.error (JsVal.jstr "boom".toList)) (Except.ok none)
      initialRootState).1.commandline = CommandlineState.error JsVal.jundef)] at h
  simp at h

/-- C4 counterexample: when `app_command` rejects with the string error
`"unknown command"`, the commandline becomes `Error` carrying the JSON
serialization `"\"unknown command\""` — quotes included — and therefore
not the message `"unknown command"` the claim states; no fetch occurs. -/
theorem app_command_unknown_rejection_counterexample :
    (invokeAppCommand ":zzz".toList (Except.error (JsVal.jstr "unknown command".toList))
        (Except.ok none) initialRootState).1.commandline
      = CommandlineState.error (JsVal.jstr "\"unknown command\"".toList)
    ∧ (invokeAppCommand ":zzz".toList (Except.error (JsVal.jstr "unknown command".toList))
        (Except.ok none) initialRootState).1.commandline
      ≠ CommandlineState.error (JsVal.jstr "unknown command".toList)
    ∧ BackendCall.fetch ∉ (invokeAppCommand ":zzz".toList
        (Except.error (JsVal.jstr "unknown command".toList)) (Except.ok none)
        initialRootState).2 := by
  decide

/-- C4 (amended): whenever a target run through `wrapErrorHandler`
rejects, the wrapper dispatches no state refresh and routes the failure,
serialized by `JSON.stringify`, into the commandline as its `Error`
state; in particular a rejected `app_command` leaves the goal, display
and activity caches untouched, performs no fetch, and sets the
commandline to `Error(JSON.stringify(e))`. -/
theorem wrapped_rejection_skips_refresh_and_displays_error :
    (∀ (target : TargetRun) (fetchStateAfter : Bool)
        (fetchStateRun : RootState → RootState × List BackendCall)
        (s s1 : RootState) (calls : List BackendCall) (e : JsVal),
        target s = (s1, calls, Except.error e) →
        wrapErrorHandler target fetchStateAfter fetchStateRun s
          = (dispatchDisplayError s1 (JsVal.jobjError (JsVal.jstr (jsonStringify e))), calls))
    ∧ (∀ (command : JSString) (e : JsVal)
        (fetchResult : Except JsVal (Option FrontendState)) (s : RootState),
        (invokeAppCommand command (Except.error e) fetchResult s).1.commandline
            = CommandlineState.error (JsVal.jstr (jsonStringify e))
        ∧ BackendCall.fetch ∉ (invokeAppCommand command (Except.error e) fetchResult s).2
        ∧ (invokeAppCommand command (Except.error e) fetchResult s).1.goal = s.goal
        ∧ (invokeAppCommand command (Except.error e) fetchResult s).1.display = s.display
        ∧ (invokeAppCommand command (Except.error e) fetchResult s).1.activity = s.activity) := by
  constructor
  · intro target fetchStateAfter fetchStateRun s s1 calls e h
    simp [wrapErrorHandler, h]
  · intro command e fetchResult s
    refine ⟨rfl, ?_, rfl, rfl, rfl⟩
    simp [invokeAppCommand, wrapErrorHandler, invokeAppCommandThunk]

/-- C4 witness: the amended theorem applied to a concrete rejecting
`app_command` target. -/
theorem wrapped_rejection_skips_refresh_witness :
    wrapErrorHandler (invokeAppCommandThunk ":x".toList (Except.error JsVal.jnull)) false
        (fun s0 => (s0, [])) initialRootState
      = (dispatchDisplayError initialRootState
          (JsVal.jobjError (JsVal.jstr (jsonStringify JsVal.jnull))),
         [BackendCall.appCommand ":x".toList]) :=
  wrapped_rejection_skips_refresh_and_displays_error.1
    (invokeAppCommandThunk ":x".toList (Except.error JsVal.jnull)) false
    (fun s0 => (s0, [])) initialRootState initialRootState
    [BackendCall.appCommand ":x".toList] JsVal.jnull rfl

/-- C7 counterexample: in state `Typing("")` — unreachable, but covered
by the claim's quantification over all state/key pairs — Backspace leaves
the state `Typing("")` instead of the `Empty` the claim's table demands. -/
theorem backspace_on_empty_content_counterexample :
    handleKeyPressEvent (CommandlineState.typing []) backspaceKey
      = CommandlineState.typing []
    ∧ handleKeyPressEvent (CommandlineState.typing []) backspaceKey
      ≠ CommandlineState.empty := by
  decide

/-- C7 (amended): the commandline transition function is total over all
state/key pairs and agrees with the spec's table at every pair, with the
Backspace/Delete row amended to leave `Typing(c)` unchanged when `c` is
empty (and `Empty` only when `len(c) = 1`). -/
theorem handleKeyPressEvent_conforms_to_table (state : CommandlineState) (key : JSString) :
    handleKeyPressEvent state key = nextSpecTable state key := by
  cases state with
  | empty => rfl
  | error m => rfl
  | typing c =>
      by_cases h1 : key = escapeKey
      · simp [handleKeyPressEvent, nextSpecTable, h1]
      · by_cases h2 : key = enterKey
        · subst h2
          have hbd : ¬ (enterKey = backspaceKey ∨ enterKey = deleteKey) := by decide
          simp [handleKeyPressEvent, nextSpecTable, h1, hbd]
        · by_cases h3 : key = backspaceKey ∨ key = deleteKey
          · simp [handleKeyPressEvent, nextSpecTable, h1, h2, h3]
          · simp [handleKeyPressEvent, nextSpecTable, h1, h2, h3]

/-- Lemma: one key press preserves well-formedness of typing content. -/
theorem typingWellFormed_handleKeyPressEvent (s : CommandlineState) (key : JSString)
    (h : typingWellFormed s) : typingWellFormed (handleKeyPressEvent s key) := by
  cases s with
  | empty =>
      by_cases h1 : key = colonKey
      · simp [handleKeyPressEvent, h1, typingWellFormed, colonKey]
      · by_cases h2 : key = escapeKey
        · subst h2
          trivial
        · simp [handleKeyPressEvent, h1, h2, typingWellFormed]
  | error m =>
      by_cases h1 : key = colonKey
      · simp [handleKeyPressEvent, h1, typingWellFormed, colonKey]
      · by_cases h2 : key = escapeKey
        · subst h2
          trivial
        · simp [handleKeyPressEvent, h1, h2, typingWellFormed]
  | typing c =>
      obtain ⟨rest, rfl⟩ := h
      by_cases h1 : key = escapeKey
      · simp [handleKeyPressEvent, h1, typingWellFormed]
      · by_cases h2 : key = backspaceKey ∨ key = deleteKey
        · by_cases h3 : (':' :: rest).length > 1
          · obtain ⟨b, rest', rfl⟩ : ∃ b rest', rest = b :: rest' := by
              cases rest with
              | nil => exact absurd h3 (by decide)
              | cons b r => exact ⟨b, r, rfl⟩
            simp [handleKeyPressEvent, h1, h2, h3, typingWellFormed,
              List.take_succ_cons]
          · have h4 : (':' :: rest).length = 1 := by
              simp only [List.length_cons] at h3 ⊢
              omega
            simp [handleKeyPressEvent, h1, h2, h3, h4, typingWellFormed]
        · by_cases h3 : key = enterKey
          · subst h3
            trivial
          · simp [handleKeyPressEvent, h1, h2, h3, typingWellFormed]

/-- Lemma: every reachable commandline state has well-formed content. -/
theorem reachable_typingWellFormed (s : CommandlineState)
    (h : ReachableCommandline s) : typingWellFormed s := by
  induction h with
  | init => trivial
  | keyPress s key _ ih => exact typingWellFormed_handleKeyPressEvent s key ih
  | errorDisplay s payload _ ih => trivial

/-- C8: in every commandline state reachable from the initial `Empty`
state by key-press transitions and `displayError` dispatches, a `Typing`
state's content begins with `':'` and has length at least one. -/
theorem reachable_typing_content_well_formed (s : CommandlineState)
    (hs : ReachableCommandline s) (c : JSString)
    (hc : s = CommandlineState.typing c) :
    c.head? = some ':' ∧ 1 ≤ c.length := by
  have h := reachable_typingWellFormed s hs
  rw [hc] at h
  obtain ⟨rest, rfl⟩ := h
  simp

/-- C8 witness: the invariant instantiated at the reachable state
`Typing(":")` produced by pressing `':'` from `Empty`. -/
theorem reachable_typing_content_well_formed_witness :
    (colonKey.head? = some ':') ∧ 1 ≤ colonKey.length :=
  reachable_typing_content_well_formed (CommandlineState.typing colonKey)
    (by
      have h := ReachableCommandline.keyPress CommandlineState.empty colonKey
        ReachableCommandline.init
      rwa [(by decide : handleKeyPressEvent CommandlineState.empty colonKey
        = CommandlineState.typing colonKey)] at h)
    colonKey rfl

/-- Lemma: a printable (single-character) key press grows the typing
buffer by at most one character and never produces an error state. -/
theorem boundedTyping_step (m : Nat) (s : CommandlineState) (key : JSString)
    (hk : key.length = 1) (h : boundedTyping m s) :
    boundedTyping (m + 1) (handleKeyPressEvent s key) := by
  have hke : key ≠ escapeKey := fun he => absurd (he ▸ hk) (by decide)
  have hkb : key ≠ backspaceKey := fun he => absurd (he ▸ hk) (by decide)
  have hkd : key ≠ deleteKey := fun he => absurd (he ▸ hk) (by decide)
  have hkn : key ≠ enterKey := fun he => absurd (he ▸ hk) (by decide)
  rcases h with hs | ⟨c, hs, h1, h2⟩
  · subst hs
    by_cases hc : key = colonKey
    · rw [(show handleKeyPressEvent CommandlineState.empty key
          = CommandlineState.typing colonKey by simp [handleKeyPressEvent, hc])]
      right
      have hlen : colonKey.length = 1 := by decide
      exact ⟨colonKey, rfl, by omega, by omega⟩
    · rw [(show handleKeyPressEvent CommandlineState.empty key
          = CommandlineState.empty by simp [handleKeyPressEvent, hc, hke])]
      exact Or.inl rfl
  · subst hs
    rw [(show handleKeyPressEvent (CommandlineState.typing c) key
          = CommandlineState.typing (c ++ key) by
        simp [handleKeyPressEvent, hke, hkb, hkd, hkn])]
    right
    have hlen : (c ++ key).length = c.length + 1 := by
      simp [List.length_append, hk]
    exact ⟨c ++ key, rfl, by omega, by omega⟩

/-- Lemma: a sequence of printable key presses keeps the buffer bounded
by the number of presses. -/
theorem boundedTyping_applyKeys (keys : List JSString) (m : Nat) (s : CommandlineState)
    (hk : ∀ k ∈ keys, k.length = 1) (h : boundedTyping m s) :
    boundedTyping (m + keys.length) (applyKeys s keys) := by
  induction keys generalizing m s with
  | nil => simpa [applyKeys] using h
  | cons k ks ih =>
      have hstep := boundedTyping_step m s k (hk k (by simp)) h
      have htail := ih (m + 1) (handleKeyPressEvent s k)
        (fun k' hk' => hk k' (by simp [hk'])) hstep
      rw [(show m + 1 + ks.length = m + (ks.length + 1) by omega)] at htail
      simpa [applyKeys] using htail

/-- Lemma: a buffer of at most `m` characters is drained to `Empty` by
`m` Backspace presses. -/
theorem boundedTyping_drain (m : Nat) (s : CommandlineState) (h : boundedTyping m s) :
    applyKeys s (List.replicate m backspaceKey) = CommandlineState.empty := by
  induction m generalizing s with
  | zero =>
      rcases h with hs | ⟨c, hs, h1, h2⟩
      · simpa [applyKeys] using hs
      · omega
  | succ n ih =>
      have hstep : boundedTyping n (handleKeyPressEvent s backspaceKey) := by
        rcases h with hs | ⟨c, hs, h1, h2⟩
        · subst hs
          rw [(show handleKeyPressEvent CommandlineState.empty backspaceKey
                = CommandlineState.empty by decide)]
          exact Or.inl rfl
        · subst hs
          by_cases hlen : c.length > 1
          · rw [(show handleKeyPressEvent (CommandlineState.typing c) backspaceKey
                  = CommandlineState.typing (c.take (c.length - 1)) by
                simp [handleKeyPressEvent, hlen,
                  (by decide : ¬ backspaceKey = escapeKey)])]
            right
            have hlen : (c.take (c.length - 1)).length = c.length - 1 := by
              rw [List.length_take]
              omega
            exact ⟨c.take (c.length - 1), rfl, by omega, by omega⟩
          · have hlen1 : c.length = 1 := by omega
            rw [(show handleKeyPressEvent (CommandlineState.typing c) backspaceKey
                  = CommandlineState.empty by
                simp [handleKeyPressEvent, hlen1,
                  (by decide : ¬ backspaceKey = escapeKey)])]
            exact Or.inl rfl
      have htail := ih (handleKeyPressEvent s backspaceKey) hstep
      simpa [applyKeys, List.replicate_succ] using htail

/-- C9: for every sequence of printable (single-character) keypresses
applied to the commandline starting from `Empty`, applying the same
number of Backspace keypresses afterwards returns the commandline to
`Empty`. -/
theorem printable_backspace_round_trip (keys : List JSString)
    (h : ∀ k ∈ keys, k.length = 1) :
    applyKeys (applyKeys CommandlineState.empty keys)
      (List.replicate keys.length backspaceKey) = CommandlineState.empty := by
  have h1 := boundedTyping_applyKeys keys 0 CommandlineState.empty h (Or.inl rfl)
  rw [Nat.zero_add] at h1
  exact boundedTyping_drain keys.length (applyKeys CommandlineState.empty keys) h1

/-- C9 witness: the round trip at the concrete key sequence `':'`, `'a'`. -/
theorem printable_backspace_round_trip_witness :
    applyKeys (applyKeys CommandlineState.empty [[':'], ['a']])
      (List.replicate ([[':'], ['a']] : List JSString).length backspaceKey)
      = CommandlineState.empty :=
  printable_backspace_round_trip [[':'], ['a']] (by decide)

end Geff
